import Mathlib

/-!
Shallow embedding of the platform time-and-scheduling syscall layer
(`src/runtime/async_runtime/c_runtime/syscalls.c`) and proofs of the
specified properties.

Each C function is embedded as a pure Lean function whose extra arguments
are the results the operating system would hand back for the single OS
call the function makes (the OS oracle).  Where a claim is about which OS
calls are reached, the embedding also returns the list of OS calls the
function performed.  C `int` division and remainder truncate toward zero,
so they are rendered with `Int.tdiv` / `Int.tmod`; the two 64-bit results
that the source computes with wrapping two's-complement arithmetic
(Windows `QuadPart` products) are rendered with an explicit `wrap64`.
-/

namespace QiSyscalls

/-- POSIX `struct timespec`: seconds and nanoseconds fields. -/
structure Timespec where
  tv_sec : Int
  tv_nsec : Int
  deriving Repr, DecidableEq

/-- Two's-complement wrap of an integer into the signed 64-bit range
`[-2^63, 2^63)`, the value an `int64_t` holds after wrapping arithmetic. -/
def wrap64 (x : Int) : Int :=
  (x + 2 ^ 63) % 2 ^ 64 - 2 ^ 63

/-- Two's-complement wrap of an integer into the signed 32-bit range
`[-2^31, 2^31)`, the value a C `int` holds after a narrowing cast. -/
def wrap32 (x : Int) : Int :=
  (x + 2 ^ 31) % 2 ^ 32 - 2 ^ 31

/-- The OS calls the layer can issue; used to record the trace of OS
interactions a single invocation performs. -/
inductive OsCall where
  | nanosleep (req : Timespec)
  | clock_gettime_monotonic
  | clock_gettime_cputime
  | sched_yield
  | sysconf_nprocessors
  deriving Repr, DecidableEq

/-- The `struct timespec` that `qi_async_sys_sleep_ms` builds on the POSIX
path: `req.tv_sec = ms / 1000; req.tv_nsec = (ms % 1000) * 1000000` with C
truncating division. -/
def sleepTimespec (ms : Int) : Timespec :=
  { tv_sec := Int.tdiv ms 1000, tv_nsec := Int.tmod ms 1000 * 1000000 }

/-- `qi_async_sys_sleep_ms` (POSIX path).  `ms` is the requested duration;
`nanosleep_ret` is what `nanosleep` would return (0 on success, -1 when
interrupted or failing).  Returns the C result together with the list of
OS calls performed. -/
def qi_async_sys_sleep_ms (ms : Int) (nanosleep_ret : Int) : Int × List OsCall :=
  if ms < 0 then
    (-1, [])
  else
    let req := sleepTimespec ms
    if nanosleep_ret = -1 then
      (-1, [OsCall.nanosleep req])
    else
      (0, [OsCall.nanosleep req])

/-- The nanosecond value the POSIX paths compute from a `timespec`
reading: `ts.tv_sec * 1000000000LL + ts.tv_nsec`. -/
def timespecToNs (ts : Timespec) : Int :=
  ts.tv_sec * 1000000000 + ts.tv_nsec

/-- `qi_async_sys_monotonic_time_ns` (POSIX path).  `clockRes` is the
result of `clock_gettime(CLOCK_MONOTONIC, ·)`: `none` when the call fails,
`some ts` when it stores the reading `ts`. -/
def qi_async_sys_monotonic_time_ns (clockRes : Option Timespec) : Int :=
  match clockRes with
  | none => -1
  | some ts => timespecToNs ts

/-- `qi_async_sys_monotonic_time_ns` (Windows path).  `freqRes` / `ctrRes`
are the `QuadPart` values stored by `QueryPerformanceFrequency` /
`QueryPerformanceCounter`, `none` when the corresponding call reports
failure.  The product `counter * 1000000000LL` is 64-bit and wraps; the
quotient is C truncating division. -/
def qi_async_sys_monotonic_time_ns_win (freqRes ctrRes : Option Int) : Int :=
  match freqRes with
  | none => -1
  | some freq =>
    match ctrRes with
    | none => -1
    | some counter => Int.tdiv (wrap64 (counter * 1000000000)) freq

/-- Windows `FILETIME`: two 32-bit unsigned halves. -/
structure Filetime where
  dwLowDateTime : Nat
  dwHighDateTime : Nat
  deriving Repr, DecidableEq

/-- The `ULARGE_INTEGER.QuadPart` assembled from a `FILETIME`'s halves. -/
def filetimeQuad (ft : Filetime) : Nat :=
  ft.dwHighDateTime * 2 ^ 32 + ft.dwLowDateTime

/-- `qi_async_sys_cpu_time_ns` (POSIX path).  `clockRes` is the result of
`clock_gettime(CLOCK_PROCESS_CPUTIME_ID, ·)`. -/
def qi_async_sys_cpu_time_ns (clockRes : Option Timespec) : Int :=
  match clockRes with
  | none => -1
  | some ts => timespecToNs ts

/-- `qi_async_sys_cpu_time_ns` (Windows path).  `timesRes` is the
kernel-time and user-time pair stored by `GetProcessTimes`, `none` when
that call fails.  `(kernel.QuadPart + user.QuadPart) * 100` is unsigned
64-bit arithmetic whose result is cast to `int64_t`, i.e. wrapped. -/
def qi_async_sys_cpu_time_ns_win (timesRes : Option (Filetime × Filetime)) : Int :=
  match timesRes with
  | none => -1
  | some (kernel_time, user_time) =>
    wrap64 (((filetimeQuad kernel_time + filetimeQuad user_time) * 100 : Nat))

/-- `qi_async_sys_yield` (POSIX path).  `sched_yield_ret` is the result of
`sched_yield()`. -/
def qi_async_sys_yield (sched_yield_ret : Int) : Int :=
  if sched_yield_ret = -1 then -1 else 0

/-- `qi_async_sys_yield` (Windows path).  The result of `SwitchToThread`
is ignored; the function returns 0 unconditionally. -/
def qi_async_sys_yield_win (_switch_ret : Bool) : Int :=
  0

/-- `qi_async_sys_cpu_count` (POSIX path).  `nprocs` is the `long` that
`sysconf(_SC_NPROCESSORS_ONLN)` returns; a non-error value is narrowed by
the `(int)` cast. -/
def qi_async_sys_cpu_count (nprocs : Int) : Int :=
  if nprocs = -1 then -1 else wrap32 nprocs

/-- `qi_async_sys_cpu_count` (Windows path).  `dwNumberOfProcessors` is
the `DWORD` stored by `GetSystemInfo` (which cannot fail); it is narrowed
by the `(int)` cast. -/
def qi_async_sys_cpu_count_win (dwNumberOfProcessors : Nat) : Int :=
  wrap32 dwNumberOfProcessors

/-- One invocation of a layer operation together with the OS oracle
answers it consumes (POSIX paths). -/
inductive SysOp where
  | sleep (ms : Int) (nanosleep_ret : Int)
  | monotonic (clockRes : Option Timespec)
  | cpuTime (clockRes : Option Timespec)
  | yieldOp (sched_yield_ret : Int)
  | cpuCount (nprocs : Int)
  deriving Repr

/-- The result of one invocation, computed from that invocation's inputs
alone: the layer owns no static or global variable any operation could
read or write. -/
def evalOp : SysOp → Int
  | SysOp.sleep ms r => (qi_async_sys_sleep_ms ms r).1
  | SysOp.monotonic res => qi_async_sys_monotonic_time_ns res
  | SysOp.cpuTime res => qi_async_sys_cpu_time_ns res
  | SysOp.yieldOp r => qi_async_sys_yield r
  | SysOp.cpuCount n => qi_async_sys_cpu_count n

/-- Running a sequence of invocations in order.  No state is threaded
between the calls because the C file declares none. -/
def runOps : List SysOp → List Int
  | [] => []
  | c :: rest => evalOp c :: runOps rest

/-- C1: for every `duration_ms < 0`, `qi_async_sys_sleep_ms` returns its
error result `-1` immediately, performing no OS call at all (the OS-call
trace is empty), so no `nanosleep`/`Sleep` is reached and no state is
touched. -/
theorem sleep_negative_rejected (ms : Int) (nanosleep_ret : Int) (h : ms < 0) :
    qi_async_sys_sleep_ms ms nanosleep_ret = (-1, []) := by
  simp [qi_async_sys_sleep_ms, h]

theorem sleep_negative_rejected_witness :
    qi_async_sys_sleep_ms (-1) 0 = (-1, []) :=
  sleep_negative_rejected (-1) 0 (by decide)

/-- C2: for every `duration_ms ≥ 0`, when the OS wait is interrupted
(`nanosleep` returns `-1`), `qi_async_sys_sleep_ms` returns the failure
`-1` to the caller without retrying: the invocation issues exactly one
`nanosleep` call — in particular at most one OS wait call. -/
theorem sleep_interrupted_no_retry (ms : Int) (nanosleep_ret : Int) (h : 0 ≤ ms) :
    (nanosleep_ret = -1 → (qi_async_sys_sleep_ms ms nanosleep_ret).1 = -1) ∧
    (qi_async_sys_sleep_ms ms nanosleep_ret).2 = [OsCall.nanosleep (sleepTimespec ms)] ∧
    (qi_async_sys_sleep_ms ms nanosleep_ret).2.length ≤ 1 := by
  have h' : ¬ ms < 0 := not_lt.mpr h
  unfold qi_async_sys_sleep_ms
  by_cases hr : nanosleep_ret = -1 <;> simp [h', hr]

theorem sleep_interrupted_no_retry_witness :
    ((-1 : Int) = -1 → (qi_async_sys_sleep_ms 5 (-1)).1 = -1) ∧
    (qi_async_sys_sleep_ms 5 (-1)).2 = [OsCall.nanosleep (sleepTimespec 5)] ∧
    (qi_async_sys_sleep_ms 5 (-1)).2.length ≤ 1 :=
  sleep_interrupted_no_retry 5 (-1) (by decide)

/-- C3: for every `duration_ms ≥ 0` on the POSIX path, the `timespec` that
`qi_async_sys_sleep_ms` hands to the OS requests exactly `duration_ms`
milliseconds: `tv_sec·10⁹ + tv_nsec = duration_ms·10⁶` with
`0 ≤ tv_nsec < 10⁹`, a valid `timespec`. -/
theorem sleep_timespec_exact (ms : Int) (h : 0 ≤ ms) :
    (sleepTimespec ms).tv_sec * 1000000000 + (sleepTimespec ms).tv_nsec = ms * 1000000 ∧
    0 ≤ (sleepTimespec ms).tv_nsec ∧ (sleepTimespec ms).tv_nsec < 1000000000 := by
  have hd := Int.tdiv_add_tmod ms 1000
  have h0 : 0 ≤ Int.tmod ms 1000 := Int.tmod_nonneg 1000 h
  have h1 : Int.tmod ms 1000 < 1000 := Int.tmod_lt_of_pos ms (by norm_num)
  unfold sleepTimespec
  dsimp only
  refine ⟨by linear_combination 1000000 * hd, by positivity, by linarith⟩

theorem sleep_timespec_exact_witness :
    (sleepTimespec 1234).tv_sec * 1000000000 + (sleepTimespec 1234).tv_nsec = 1234 * 1000000 ∧
    0 ≤ (sleepTimespec 1234).tv_nsec ∧ (sleepTimespec 1234).tv_nsec < 1000000000 :=
  sleep_timespec_exact 1234 (by decide)

/-- C4: the conversion `tv_sec·10⁹ + tv_nsec` that
`qi_async_sys_monotonic_time_ns` applies on the POSIX path is monotone in
the `(tv_sec, tv_nsec)` reading (ordered lexicographically, with valid
nanosecond fields), so non-decreasing platform clock readings yield a
non-decreasing sequence of returned values. -/
theorem monotonic_conversion_monotone (ts1 ts2 : Timespec)
    (hv1 : 0 ≤ ts1.tv_nsec ∧ ts1.tv_nsec < 1000000000)
    (hv2 : 0 ≤ ts2.tv_nsec ∧ ts2.tv_nsec < 1000000000)
    (hle : ts1.tv_sec < ts2.tv_sec ∨ ts1.tv_sec = ts2.tv_sec ∧ ts1.tv_nsec ≤ ts2.tv_nsec) :
    qi_async_sys_monotonic_time_ns (some ts1) ≤ qi_async_sys_monotonic_time_ns (some ts2) := by
  simp only [qi_async_sys_monotonic_time_ns, timespecToNs]
  obtain ⟨h1, h1'⟩ := hv1
  obtain ⟨h2, h2'⟩ := hv2
  omega

theorem monotonic_conversion_monotone_witness :
    qi_async_sys_monotonic_time_ns (some ⟨0, 5⟩) ≤ qi_async_sys_monotonic_time_ns (some ⟨1, 0⟩) :=
  monotonic_conversion_monotone ⟨0, 5⟩ ⟨1, 0⟩ (by decide) (by decide) (by decide)

/-- C5: the time reads fail exactly on the failure branch of the platform
clock API, and the failure outcome is the in-band sentinel `-1`: when the
clock call fails the functions return `-1` and nothing else; when it
succeeds they return the converted reading — and `-1` is also reachable as
a converted reading of a successful call (a `timespec` with a valid
nanosecond field), so the sentinel is not excludable as a legitimate
value. -/
theorem clock_failure_sentinel :
    qi_async_sys_monotonic_time_ns none = -1 ∧
    qi_async_sys_cpu_time_ns none = -1 ∧
    (∀ c, qi_async_sys_monotonic_time_ns_win none c = -1) ∧
    (∀ f, qi_async_sys_monotonic_time_ns_win (some f) none = -1) ∧
    qi_async_sys_cpu_time_ns_win none = -1 ∧
    (∀ ts, qi_async_sys_monotonic_time_ns (some ts) = timespecToNs ts) ∧
    (∀ ts, qi_async_sys_cpu_time_ns (some ts) = timespecToNs ts) ∧
    (∃ ts : Timespec, 0 ≤ ts.tv_nsec ∧ ts.tv_nsec < 1000000000 ∧
      qi_async_sys_monotonic_time_ns (some ts) = -1) :=
  ⟨rfl, rfl, fun _ => rfl, fun _ => rfl, rfl, fun _ => rfl, fun _ => rfl,
    ⟨⟨-1, 999999999⟩, by decide, by decide, by decide⟩⟩

/-- C6: on success, `qi_async_sys_cpu_time_ns` returns kernel-plus-user
process CPU time in nanoseconds: on Windows `(kernel + user)` FILETIME
ticks times 100 (whenever that product fits an `int64_t`), and on POSIX
the `CLOCK_PROCESS_CPUTIME_ID` reading converted as
`tv_sec·10⁹ + tv_nsec`. -/
theorem cpu_time_formula (kernel_time user_time : Filetime) (ts : Timespec)
    (hfit : (filetimeQuad kernel_time + filetimeQuad user_time) * 100 < 2 ^ 63) :
    qi_async_sys_cpu_time_ns_win (some (kernel_time, user_time)) =
      ((filetimeQuad kernel_time + filetimeQuad user_time) * 100 : Nat) ∧
    qi_async_sys_cpu_time_ns (some ts) = ts.tv_sec * 1000000000 + ts.tv_nsec := by
  refine ⟨?_, rfl⟩
  simp only [qi_async_sys_cpu_time_ns_win, wrap64]
  omega

theorem cpu_time_formula_witness :
    qi_async_sys_cpu_time_ns_win (some (⟨100, 0⟩, ⟨50, 0⟩)) =
      ((filetimeQuad ⟨100, 0⟩ + filetimeQuad ⟨50, 0⟩) * 100 : Nat) ∧
    qi_async_sys_cpu_time_ns (some ⟨1, 2⟩) = (1 : Int) * 1000000000 + 2 :=
  cpu_time_formula ⟨100, 0⟩ ⟨50, 0⟩ ⟨1, 2⟩ (by decide)

/-- C7: every non-error result `qi_async_sys_cpu_count` produces from the
OS query is a positive core count, on both platforms, given the platform
guarantee that the query reports either an error or a representable count
`≥ 1`. -/
theorem cpu_count_positive (nprocs : Int) (d : Nat)
    (hp : nprocs = -1 ∨ 1 ≤ nprocs ∧ nprocs ≤ 2 ^ 31 - 1)
    (hd : 1 ≤ d) (hd' : d ≤ 2 ^ 31 - 1) :
    (qi_async_sys_cpu_count nprocs ≠ -1 → 1 ≤ qi_async_sys_cpu_count nprocs) ∧
    1 ≤ qi_async_sys_cpu_count_win d := by
  unfold qi_async_sys_cpu_count qi_async_sys_cpu_count_win wrap32
  constructor
  · rcases hp with h | ⟨h1, h2⟩
    · simp [h]
    · have hne : ¬ nprocs = -1 := by omega
      simp only [hne, if_false]
      intro _
      omega
  · omega

theorem cpu_count_positive_witness :
    (qi_async_sys_cpu_count 8 ≠ -1 → 1 ≤ qi_async_sys_cpu_count 8) ∧
    1 ≤ qi_async_sys_cpu_count_win 8 :=
  cpu_count_positive 8 8 (by decide) (by decide) (by decide)

/-- C8: `qi_async_sys_yield` fails exactly when the OS yield primitive
reports failure: on POSIX it returns `-1` if and only if `sched_yield`
returned `-1`, returning success `0` otherwise; on Windows it returns
success `0` unconditionally. -/
theorem yield_error_iff (sched_yield_ret : Int) (b : Bool) :
    (qi_async_sys_yield sched_yield_ret = -1 ↔ sched_yield_ret = -1) ∧
    (sched_yield_ret ≠ -1 → qi_async_sys_yield sched_yield_ret = 0) ∧
    qi_async_sys_yield_win b = 0 := by
  unfold qi_async_sys_yield qi_async_sys_yield_win
  by_cases h : sched_yield_ret = -1 <;> simp [h]

theorem yield_error_iff_witness :
    (qi_async_sys_yield 0 = -1 ↔ (0 : Int) = -1) ∧
    ((0 : Int) ≠ -1 → qi_async_sys_yield 0 = 0) ∧
    qi_async_sys_yield_win true = 0 :=
  yield_error_iff 0 true

/-- C9: the layer is stateless across calls: in any sequence of
invocations, each call's result equals the standalone evaluation of that
call from its own OS-oracle inputs, independent of every earlier or later
call — the embedding threads no state because the source declares no
static or global variable. -/
theorem layer_stateless (pre post : List SysOp) (c : SysOp) :
    (runOps (pre ++ c :: post))[pre.length]? = some (evalOp c) ∧
    runOps (pre ++ c :: post) = runOps pre ++ evalOp c :: runOps post := by
  induction pre with
  | nil => refine ⟨?_, ?_⟩ <;> simp [runOps]
  | cons a t ih =>
    refine ⟨?_, ?_⟩
    · simpa [runOps] using ih.1
    · simp [runOps, ih.2]

/-- C10: on the Windows path, `qi_async_sys_monotonic_time_ns` computes
`(counter × 10⁹) / frequency` in wrapping 64-bit signed arithmetic: for
every representable counter greater than `2⁶³/10⁹` ticks the product wraps
modulo `2⁶⁴` (the wrapped product differs from the exact one), and at a
concrete such counter with a 10 MHz frequency the returned timestamp is
negative and smaller than the value returned for the immediately preceding
counter reading. -/
theorem monotonic_win_overflow (counter : Int)
    (h : 2 ^ 63 / 1000000000 < counter) (h' : counter < 2 ^ 63) :
    wrap64 (counter * 1000000000) ≠ counter * 1000000000 ∧
    qi_async_sys_monotonic_time_ns_win (some 10000000) (some 9223372037) < 0 ∧
    qi_async_sys_monotonic_time_ns_win (some 10000000) (some 9223372037) <
      qi_async_sys_monotonic_time_ns_win (some 10000000) (some 9223372036) := by
  refine ⟨?_, by decide, by decide⟩
  unfold wrap64
  omega

theorem monotonic_win_overflow_witness :
    wrap64 (9223372037 * 1000000000) ≠ 9223372037 * 1000000000 ∧
    qi_async_sys_monotonic_time_ns_win (some 10000000) (some 9223372037) < 0 ∧
    qi_async_sys_monotonic_time_ns_win (some 10000000) (some 9223372037) <
      qi_async_sys_monotonic_time_ns_win (some 10000000) (some 9223372036) :=
  monotonic_win_overflow 9223372037 (by decide) (by decide)

end QiSyscalls
